import Mathlib

/-!
Verification of the smart-review pull-request review orchestrator.

The development shallowly embeds the Python sources of the repository:
* `src/smart_review/ai/base.py` — `PROMPT_TEMPLATE`, `BaseLLMClient.review_pr`,
  `BaseLLMClient.files_to_string`;
* `src/smart_review/gitops/github.py` — `create_positive_review`,
  `create_negative_review`, `create_negative_review_comment`;
* `src/smart_review/control/controller.py` — `AuthenticationInformation`,
  `Options.max_recursion`, `Controller.perform_review`;
* `src/smart_review/ai/openai.py` — the success path of
  `OpenAILLMClient._talk_to_llm`;
* `src/smart_review/app.py` — the CLI default for `--max-recursion`.

Python dictionaries, JSON-derived values, exceptions and the relevant part of
the `str.format` mini-language are modelled explicitly so that the embedded
functions follow the Python evaluation order statement by statement.
-/

set_option maxRecDepth 20000

namespace SmartReview

/-- A JSON-derived Python value: the values that can appear in an LLM reply
(`json.loads` of a JSON object) and that flow through `review_pr`. -/
inductive PyValue where
  | str (s : String)
  | int (n : Int)
  | list (xs : List PyValue)
  | dict (entries : List (String × PyValue))
deriving Inhabited

/-- A Python dict with string keys, as produced by `json.loads` for a JSON
object: an association list whose keys are unique, looked up front to back. -/
abbrev PyDict := List (String × PyValue)

/-- The Python exceptions that the embedded code can raise, including the
project's own exception classes from `src/smart_review/exceptions.py`
(carrying their `exception_message`). -/
inductive PyErr where
  | keyError (key : String)
  | typeError (msg : String)
  | valueError (msg : String)
  | indexError (msg : String)
  | attributeError (msg : String)
  | assertionError
  | smartReviewGithubException (msg : String)
  | smartReviewLLMException (msg : String) (status : Nat)
  | smartReviewSystemException (msg : String)
deriving Repr, DecidableEq, Inhabited

/-- Membership-and-lookup for a Python dict: `d.get(k)` / `d[k]`. -/
def dictGet (d : PyDict) (k : String) : Option PyValue :=
  (d.find? (fun kv => kv.1 = k)).map (fun kv => kv.2)

mutual

/-- Python `repr()` of a JSON-derived value (strings quoted; lists and dicts
rendered element-wise).  Follows the shape of Python's rendering without
reproducing `repr`'s escaping of special characters inside strings — no
theorem below ever renders a `list` or `dict`. -/
def pyRepr : PyValue → String
  | .str s => "\x27" ++ s ++ "\x27"
  | .int n => toString n
  | .list xs => "[" ++ String.intercalate ", " (pyReprList xs) ++ "]"
  | .dict kvs =>
      "\x7b" ++ String.intercalate ", " (pyReprEntries kvs) ++ "\x7d"

/-- The element renderings of a Python list. -/
def pyReprList : List PyValue → List String
  | [] => []
  | x :: xs => pyRepr x :: pyReprList xs

/-- The `key: value` renderings of a Python dict. -/
def pyReprEntries : List (String × PyValue) → List String
  | [] => []
  | kv :: kvs => ("\x27" ++ kv.1 ++ "\x27: " ++ pyRepr kv.2) :: pyReprEntries kvs

end

/-- Python `str()` of a JSON-derived value, as used by f-string interpolation
and `str.format` with an empty format spec.  For `str` and `int` this is
exact; containers fall back to their `repr`. -/
def pyStr : PyValue → String
  | .str s => s
  | .int n => toString n
  | v => pyRepr v

/-! ### The `str.format` mini-language

`BaseLLMClient.review_pr` renders its prompt with
`self.prompt_template.format(diff=..., context=..., project_description=...,
relevant_files=..., recursion_limit=...)`.  The scanner below reproduces
CPython's left-to-right processing of a format string: literal text, `\x7b\x7b`
and `\x7d\x7d` escapes, and replacement fields
`\x7bname!conversion:spec\x7d`, where the field name runs up to the first
`!`, `:`, `\x7b` or `\x7d`, and a format spec swallows nested braces.  Fields
are resolved and substituted as the scan reaches them, so the first failing
field determines the raised exception, exactly as in CPython. -/

/-- Resolve a replacement-field name against the keyword arguments, as
CPython's `get_field` does: the first component of the name (up to a `.` or
`[`) is looked up among the keyword arguments; a purely numeric first
component would be a positional index (there are no positional arguments at
this call site, so it raises `IndexError`); an unknown keyword raises
`KeyError` carrying the name. -/
def getFieldValue (kws : List (String × PyValue)) (name : List Char) :
    Except PyErr PyValue :=
  let first := name.takeWhile (fun c => c ≠ '.' ∧ c ≠ '[')
  let rest := name.dropWhile (fun c => c ≠ '.' ∧ c ≠ '[')
  if first.all Char.isDigit then
    -- an empty or numeric first component is (auto-numbered) positional
    -- indexing; `.format` is called with keyword arguments only
    .error (.indexError "Replacement index out of range for positional args tuple")
  else
    match kws.find? (fun kv => kv.1 = String.mk first) with
    | none => .error (.keyError (String.mk first))
    | some kv =>
        if rest = [] then .ok kv.2
        else .error (.attributeError "attribute and index access on format fields is not exercised by this template")

/-- Render one resolved replacement field: apply the conversion (`!s`, `!r`,
`!a`) if any, then the format spec.  The five fields of `PROMPT_TEMPLATE` that
ever get rendered all have no conversion and an empty spec, which is Python
`str()` of the value. -/
def renderField (kws : List (String × PyValue)) (name : List Char)
    (conv : Option Char) (spec : List Char) : Except PyErr String := do
  let v ← getFieldValue kws name
  let s ←
    match conv with
    | none => pure (pyStr v)
    | some c =>
        if c = 's' then pure (pyStr v)
        else if c = 'r' ∨ c = 'a' then pure (pyRepr v)
        else .error (.valueError "Invalid conversion specifier")
  if spec = [] then pure s
  else .error (.valueError "non-empty format specs are not exercised by this template")

/-- Scanner state for the `str.format` pass. -/
inductive FmtState where
  /-- Scanning literal text. -/
  | literal
  /-- Just consumed a `\x7b`. -/
  | afterLBrace
  /-- Just consumed a `\x7d` in literal text. -/
  | afterRBrace
  /-- Reading a field name (accumulated in reverse). -/
  | name (acc : List Char)
  /-- Just consumed `!` after a field name; expecting the conversion char. -/
  | conv (nameAcc : List Char)
  /-- Consumed the conversion char; expecting `:` or `\x7d`. -/
  | afterConv (nameAcc : List Char) (c : Char)
  /-- Reading a format spec (accumulated in reverse) at a brace depth. -/
  | spec (nameAcc : List Char) (conv : Option Char) (acc : List Char) (depth : Nat)

/-- One left-to-right pass of `str.format` over the template characters,
substituting each replacement field as it is completed and accumulating the
output in `acc`.  Mirrors CPython's `do_markup`: the earliest error in
template order is the one raised. -/
def formatScan (kws : List (String × PyValue)) (acc : String) :
    FmtState → List Char → Except PyErr String
  | .literal, [] => .ok acc
  | .literal, c :: rest =>
      if c = '{' then formatScan kws acc .afterLBrace rest
      else if c = '}' then formatScan kws acc .afterRBrace rest
      else formatScan kws (acc.push c) .literal rest
  | .afterLBrace, [] => .error (.valueError "Single \x27\x7b\x27 encountered in format string")
  | .afterLBrace, c :: rest =>
      if c = '{' then formatScan kws (acc.push c) .literal rest
      else if c = '}' then
        -- an empty field name is an auto-numbered positional field
        match renderField kws [] none [] with
        | .error e => .error e
        | .ok s => formatScan kws (acc ++ s) .literal rest
      else if c = ':' then formatScan kws acc (.spec [] none [] 0) rest
      else if c = '!' then formatScan kws acc (.conv []) rest
      else formatScan kws acc (.name [c]) rest
  | .afterRBrace, [] => .error (.valueError "Single \x27\x7d\x27 encountered in format string")
  | .afterRBrace, c :: rest =>
      if c = '}' then formatScan kws (acc.push c) .literal rest
      else .error (.valueError "Single \x27\x7d\x27 encountered in format string")
  | .name _, [] => .error (.valueError "Single \x27\x7b\x27 encountered in format string")
  | .name nacc, c :: rest =>
      if c = '}' then
        match renderField kws nacc.reverse none [] with
        | .error e => .error e
        | .ok s => formatScan kws (acc ++ s) .literal rest
      else if c = ':' then formatScan kws acc (.spec nacc none [] 0) rest
      else if c = '!' then formatScan kws acc (.conv nacc) rest
      else if c = '{' then .error (.valueError "unexpected \x27\x7b\x27 in field name")
      else formatScan kws acc (.name (c :: nacc)) rest
  | .conv _, [] => .error (.valueError "end of string while looking for conversion specifier")
  | .conv nacc, c :: rest => formatScan kws acc (.afterConv nacc c) rest
  | .afterConv _ _, [] => .error (.valueError "unmatched \x27\x7b\x27 in format spec")
  | .afterConv nacc c, d :: rest =>
      if d = '}' then
        match renderField kws nacc.reverse (some c) [] with
        | .error e => .error e
        | .ok s => formatScan kws (acc ++ s) .literal rest
      else if d = ':' then formatScan kws acc (.spec nacc (some c) [] 0) rest
      else .error (.valueError "expected \x27:\x27 after conversion specifier")
  | .spec _ _ _ _, [] => .error (.valueError "unmatched \x27\x7b\x27 in format spec")
  | .spec nacc cv sp depth, c :: rest =>
      if c = '}' then
        match depth with
        | 0 =>
            match renderField kws nacc.reverse cv sp.reverse with
            | .error e => .error e
            | .ok s => formatScan kws (acc ++ s) .literal rest
        | d + 1 => formatScan kws acc (.spec nacc cv (c :: sp) d) rest
      else if c = '{' then formatScan kws acc (.spec nacc cv (c :: sp) (depth + 1)) rest
      else formatScan kws acc (.spec nacc cv (c :: sp) depth) rest

/-- Python `template.format(**kwargs)` for the kwargs shapes used by
`review_pr`. -/
def pyFormat (template : String) (kws : List (String × PyValue)) :
    Except PyErr String :=
  formatScan kws "" .literal template.data

/-! ### The prompt template

`PROMPT_TEMPLATE` from `src/smart_review/ai/base.py` lines 65–126, transcribed
line by line (the Python triple-quoted literal begins with a newline and ends
with the newline after the final blank line).  Literal braces of the embedded
JSON examples are written `\x7b`/`\x7d`; the five replacement fields
(`diff`, `context`, `project_description`, `relevant_files`,
`recursion_limit`) keep their brace syntax. -/

def PROMPT_TEMPLATE : String :=
  "\n" ++
  "Review the following pull request diffs and provide feedback. Focus on code quality, potential bugs, and adherence to best practices.\n" ++
  "If the changes fail to meet any standards, provide a detailed explanation and suggest improvements.\n" ++
  "\n" ++
  "{diff}\n" ++
  "\n" ++
  "# Context:\n" ++
  "{context}\n" ++
  "\n" ++
  "# Code Quality Checklist:\n" ++
  "1. Is the code readable and maintainable?\n" ++
  "2. Are there any potential bugs or logical errors?\n" ++
  "3. Does the code follow the languages coding standards and best practices?\n" ++
  "4. Are there any performance issues or inefficiencies?\n" ++
  "5. Is there sufficient documentation and comments?\n" ++
  "\n" ++
  "# Additional Information:\n" ++
  "- Project Description: {project_description}\n" ++
  "- Relevant Files: {relevant_files}\n" ++
  "\n" ++
  "# Response Format\n" ++
  "Based on the above template your response should be one of three JSON objects:\n" ++
  "\n" ++
  "1. Positive Review:\n" ++
  "\x7b\n" ++
  "    \"message\": \"The code changes look good.\",  # Or any other positive message\n" ++
  "    \"review_type\": \"positive_review\"\n" ++
  "\x7d\n" ++
  "\n" ++
  "2. Negative Review:\n" ++
  "\x7b\n" ++
  "    \"message\": \"The code changes need improvement.\",  # Or any other negative message\n" ++
  "    \"review_type\": \"negative_review\",\n" ++
  "    \"reviews\": [\n" ++
  "        \x7b\n" ++
  "            \"file\": \"path/to/file.py\",\n" ++
  "            \"comments\": [\n" ++
  "                \x7b\n" ++
  "                    \"line\": 10,\n" ++
  "                    \"message\": \"This line of code is not clear.\" # Or a more detailed message\n" ++
  "                \x7d\n" ++
  "            ]\n" ++
  "        \x7d\n" ++
  "    ]\n" ++
  "\x7d\n" ++
  "\n" ++
  "3. Additional Files:\n" ++
  "\x7b\n" ++
  "    \"message\": \"Please provide the following files to help with the review.\",\n" ++
  "    \"review_type\": \"additional_files\",\n" ++
  "    \"additional_files\": [\"path/to/file.py\"]\n" ++
  "\x7d\n" ++
  "\n" ++
  "If your response is for additional files, they will be retrieved from the repository and the review will be repeated.\n" ++
  "There is a recursive limit to prevent infinite loops.\n" ++
  "\n" ++
  "RECURSIONS REMAINING: {recursion_limit}\n" ++
  "\n" ++
  "When the recursion\x27s remaining value is 0, the review will no longer request additional files, so you might as well\n" ++
  "return a positive or negative review.\n" ++
  "\n"

/-- The keyword arguments of the `.format(...)` call in `review_pr`
(`src/smart_review/ai/base.py` lines 151–157). -/
def ctxKwargs (diff_text context project_description relevant_files : String)
    (recursion_limit : Int) : List (String × PyValue) :=
  [("diff", .str diff_text),
   ("context", .str context),
   ("project_description", .str project_description),
   ("relevant_files", .str relevant_files),
   ("recursion_limit", .int recursion_limit)]

/-! ### The response model and the GitHub gateway -/

/-- `ResponseTypeEnum` from `src/smart_review/ai/base.py` lines 17–22.  It is a
`str` Enum in Python, so each member also compares equal (with `==`) to its
string value. -/
inductive ResponseTypeEnum where
  | POSITIVE_REVIEW
  | ADDITIONAL_FILES
  | NEGATIVE_REVIEW
deriving Repr, DecidableEq

/-- The `.value` of a `ResponseTypeEnum` member. -/
def ResponseTypeEnum.value : ResponseTypeEnum → String
  | .POSITIVE_REVIEW => "positive_review"
  | .ADDITIONAL_FILES => "additional_files"
  | .NEGATIVE_REVIEW => "negative_review"

/-- Python `==` between the (possibly absent) value of
`response.get("review_type")` and a string: `None == s` and `n == s` for an
int `n` are `False`; a string compares by content.  Because `ResponseTypeEnum`
is a `str` Enum, this also models `review_type == ResponseTypeEnum.ADDITIONAL_FILES`
at base.py line 180, where the right-hand side IS the string
`"additional_files"`. -/
def pyEqStr : Option PyValue → String → Bool
  | some (.str s), t => s = t
  | _, _ => false

/-- The observable calls made against the GitHub gateway.
`createPositiveReview` records the orchestrator's invocation of
`GitHubClient.create_positive_review` together with its argument; `createReview`
and `createReviewComment` record the PyGithub-level
`pull_request.create_review` / `pull_request.create_review_comment` REST
calls that the `GitHubClient` methods issue. -/
inductive GHCall where
  | createPositiveReview (message : PyValue)
  | createReview (body : String) (event : String)
  | createReviewComment (body : String) (path : PyValue) (line : PyValue)

/-- `GitHubClient.create_positive_review` (github.py lines 193–200): prefix the
message with the review banner and create an APPROVE review. -/
def create_positive_review (message : PyValue) : List GHCall :=
  [.createPositiveReview message,
   .createReview ("## Smart Review\n\n" ++ pyStr message) "APPROVE"]

/-- Python subscription `v[key]` with a string key on a JSON-derived value. -/
def pySubscript (v : PyValue) (key : String) : Except PyErr PyValue :=
  match v with
  | .dict entries =>
      match entries.find? (fun kv => kv.1 = key) with
      | some kv => .ok kv.2
      | none => .error (.keyError key)
  | .list _ => .error (.typeError "list indices must be integers or slices, not str")
  | .str _ => .error (.typeError "string indices must be integers, not str")
  | .int _ => .error (.typeError "int object is not subscriptable")

/-- Python iteration `for x in v` over a JSON-derived value: lists yield their
elements, strings their characters, dicts their keys; ints are not iterable. -/
def pyIter : PyValue → Except PyErr (List PyValue)
  | .list xs => .ok xs
  | .str s => .ok (s.data.map (fun c => .str (String.singleton c)))
  | .dict entries => .ok (entries.map (fun kv => .str kv.1))
  | .int _ => .error (.typeError "int object is not iterable")

/-- Python `getattr` on a JSON-derived value for the attribute names read by
`create_negative_review` (`review_message`, `reviews`): no Python
`dict`/`list`/`str`/`int` value has either attribute, so the access raises
`AttributeError`. -/
def pyGetAttr (_v : PyValue) (attrName : String) : Except PyErr PyValue :=
  .error (.attributeError attrName)

/-- `GitHubClient.create_negative_review_comment` (github.py lines 202–218):
build the banner-prefixed body from `line_review["message"]` and create one
review comment against `line_review["line"]` at `file_path`. -/
def create_negative_review_comment (line_review : PyValue) (file_path : PyValue) :
    Except PyErr GHCall := do
  let msg ← pySubscript line_review "message"
  let line ← pySubscript line_review "line"
  .ok (.createReviewComment ("## Smart Review\n\n" ++ pyStr msg) file_path line)

/-- The inner loop of `create_negative_review` (github.py line 227–229): one
comment per line review of a file, in order. -/
def negativeReviewFileComments (file_path : PyValue) :
    List PyValue → Except PyErr (List GHCall)
  | [] => .ok []
  | lr :: lrs => do
      let call ← create_negative_review_comment lr file_path
      let more ← negativeReviewFileComments file_path lrs
      .ok (call :: more)

/-- The outer loop of `create_negative_review` (github.py lines 225–229): for
each file review take `file_review["file"]` and iterate
`file_review["comments"]`, in order. -/
def negativeReviewComments : List PyValue → Except PyErr (List GHCall)
  | [] => .ok []
  | fr :: frs => do
      let file_path ← pySubscript fr "file"
      let comments ← pySubscript fr "comments"
      let lrs ← pyIter comments
      let calls ← negativeReviewFileComments file_path lrs
      let rest ← negativeReviewComments frs
      .ok (calls ++ rest)

/-- The body of `GitHubClient.create_negative_review` (github.py lines
220–233) run on an argument value: read `negative_review.review_message`,
post one comment per line review in document order, then create one
REQUEST_CHANGES summary review.  The method's type annotation expects a
`NegativeReview` attrs object; `review_pr` actually passes JSON-derived
values, on which the very first attribute access raises `AttributeError`. -/
def create_negative_review (negative_review : PyValue) : Except PyErr (List GHCall) := do
  let msg ← pyGetAttr negative_review "review_message"
  let review_comment := "## Smart Review\n\n" ++ pyStr msg
  let revs ← pyGetAttr negative_review "reviews"
  let frs ← pyIter revs
  let comments ← negativeReviewComments frs
  .ok (comments ++ [.createReview review_comment "REQUEST_CHANGES"])

/-- Python call semantics for `self.github_client.create_negative_review(a, b)`
at base.py lines 176–178: `def create_negative_review(self, negative_review)`
(github.py line 220) takes exactly one positional argument besides `self`, so
a call with any other number of positional arguments raises `TypeError` at
the call site, before the method body runs. -/
def create_negative_review_call (args : List PyValue) : Except PyErr (List GHCall) :=
  match args with
  | [negative_review] => create_negative_review negative_review
  | _ =>
      .error (.typeError ("GitHubClient.create_negative_review() takes 2 positional arguments but "
        ++ toString (args.length + 1) ++ " were given"))

/-! ### The review orchestrator -/

/-- The loop of base.py lines 185–190: for each requested path, drop it when
`path not in repository_files` (the miss is only logged), otherwise append
`repository_files[path]` — a ContentFile whose `.path` is the key and whose
`.content` is the stored content.  A JSON list or object used as a path is
unhashable, so the `in` test raises `TypeError`; ints are hashable and are
simply never equal to a string key. -/
def collectAdditionalFiles (repository_files : List (String × String)) :
    List PyValue → Except PyErr (List (String × String))
  | [] => .ok []
  | p :: ps =>
      match p with
      | .str s =>
          match repository_files.find? (fun kv => kv.1 = s) with
          | none => collectAdditionalFiles repository_files ps
          | some kv => do
              let rest ← collectAdditionalFiles repository_files ps
              .ok ((s, kv.2) :: rest)
      | .int _ => collectAdditionalFiles repository_files ps
      | .list _ => .error (.typeError "unhashable type: \x27list\x27")
      | .dict _ => .error (.typeError "unhashable type: \x27dict\x27")

/-- Python dict construction by successive insertion, as performed by the dict
comprehension `\x7bf.path: f.content for f in files\x7d` at base.py line 192:
a repeated key keeps its first position and takes the latest value. -/
def dictInsert (m : List (String × String)) (k v : String) : List (String × String) :=
  if m.any (fun kv => kv.1 = k) then
    m.map (fun kv => if kv.1 = k then (k, v) else kv)
  else m ++ [(k, v)]

/-- Fold a pair list into a Python dict, in order. -/
def dictOfPairs (ps : List (String × String)) : List (String × String) :=
  ps.foldl (fun m kv => dictInsert m kv.1 kv.2) []

/-- `BaseLLMClient.files_to_string` (base.py lines 205–208): one
`path\ncontent` block per file, joined with newlines. -/
def files_to_string (files : List (String × String)) : String :=
  String.intercalate "\n" (files.map (fun kv => kv.1 ++ "\n" ++ kv.2))

/-- The observable result of `review_pr`: either the `ResponseTypeEnum`
component of the Python return value, or — when the supplied reply sequence
is exhausted mid-recursion — the `recursion_limit` and `relevant_files` with
which the next LLM round would be issued. -/
inductive ReviewOutcome where
  | finished (t : ResponseTypeEnum)
  | needsReply (recursion_limit : Int) (relevant_files : String)
deriving Repr, DecidableEq

/-- `BaseLLMClient.review_pr` (base.py lines 141–203).  The LLM gateway is an
oracle supplying one parsed JSON reply per round (`replies`); the GitHub
gateway calls are returned as a trace next to the outcome.  Statement by
statement:
* the prompt is rendered with `.format` before `_talk_to_llm` is called, so a
  formatting error aborts the round;
* `assert "k" in response` followed by `response["k"]` is the lookup whose
  `none` case is the `AssertionError`;
* the `elif` chain compares `response.get("review_type")` with the three
  string values (`ResponseTypeEnum` is a `str` Enum);
* the `negative_review` branch calls `create_negative_review` with TWO
  positional arguments, `response["message"]` and `response["reviews"]`;
* the `additional_files` branch recurses with the newly joined file text and
  `recursion_limit - 1` — with no check that the limit is still positive;
* any other `review_type` raises `SmartReviewGithubException`. -/
def review_pr (prompt_template : String)
    (repository_files : List (String × String))
    (diff_text context project_description relevant_files : String)
    (recursion_limit : Int) :
    List PyDict → List GHCall × Except PyErr ReviewOutcome
  | [] =>
    match pyFormat prompt_template
        (ctxKwargs diff_text context project_description relevant_files recursion_limit) with
    | .error e => ([], .error e)
    | .ok _prompt => ([], .ok (.needsReply recursion_limit relevant_files))
  | response :: rest =>
    match pyFormat prompt_template
        (ctxKwargs diff_text context project_description relevant_files recursion_limit) with
    | .error e => ([], .error e)
    | .ok _prompt =>
      let review_type := dictGet response "review_type"
      if pyEqStr review_type "positive_review" then
        match dictGet response "message" with
        | none => ([], .error .assertionError)
        | some msg => (create_positive_review msg, .ok (.finished .POSITIVE_REVIEW))
      else if pyEqStr review_type "negative_review" then
        match dictGet response "message" with
        | none => ([], .error .assertionError)
        | some msg =>
          match dictGet response "reviews" with
          | none => ([], .error .assertionError)
          | some revs =>
            match create_negative_review_call [msg, revs] with
            | .error e => ([], .error e)
            | .ok calls => (calls, .ok (.finished .NEGATIVE_REVIEW))
      else if pyEqStr review_type "additional_files" then
        match dictGet response "message" with
        | none => ([], .error .assertionError)
        | some _ =>
          match dictGet response "additional_files" with
          | none => ([], .error .assertionError)
          | some afp =>
            match pyIter afp with
            | .error e => ([], .error e)
            | .ok paths =>
              match collectAdditionalFiles repository_files paths with
              | .error e => ([], .error e)
              | .ok files =>
                review_pr prompt_template repository_files diff_text context
                  project_description (files_to_string (dictOfPairs files))
                  (recursion_limit - 1) rest
      else
        ([], .error (.smartReviewGithubException "Unexpected review type from LLM."))

/-! ### The OpenAI transport and the controller -/

/-- The success path of `OpenAILLMClient._talk_to_llm` after the chat
completion has returned (openai.py lines 52–59): a `None` or empty
`message.content` yields the empty dict `\x7b\x7d` (`if not
response_jsn_string: return \x7b\x7d`); otherwise the content is parsed by
`json.loads` (supplied as an oracle), and a parse failure is re-raised as
`SmartReviewLLMException("Invalid JSON response from OpenAI")` with HTTP
status 500. -/
def talk_to_llm_content (json_loads : String → Except PyErr PyValue) :
    Option String → Except PyErr PyValue
  | none => .ok (.dict [])
  | some s =>
      if s = "" then .ok (.dict [])
      else
        match json_loads s with
        | .ok v => .ok v
        | .error _ => .error (.smartReviewLLMException "Invalid JSON response from OpenAI" 500)

/-- `LLMType` from controller.py lines 16–20. -/
inductive LLMType where
  | OPENAI
  | GOOGLE
deriving Repr, DecidableEq

/-- `AuthenticationInformation.__attrs_post_init__` (controller.py lines
42–54): zero or two supplied credentials raise `SmartReviewSystemException`;
otherwise the LLM type matches the one credential that is present.  The
Google credentials object is opaque here — only its presence matters. -/
def authentication_post_init (openai_key : Option String)
    (credentials : Option Unit) : Except PyErr LLMType :=
  if openai_key.isNone ∧ credentials.isNone then
    .error (.smartReviewSystemException "Either OpenAI key or Google credentials must be provided.")
  else if openai_key.isSome ∧ credentials.isSome then
    .error (.smartReviewSystemException "Only one of OpenAI key or Google credentials must be provided.")
  else if openai_key.isSome then .ok .OPENAI
  else .ok .GOOGLE

/-- The declared default of `Options.max_recursion` (controller.py line 108). -/
def Options_max_recursion_default : Int := 5

/-- The `validators.ge(0)` validator on `Options.max_recursion`
(controller.py line 107). -/
def Options_max_recursion_validator (r : Int) : Bool := 0 ≤ r

/-- The argparse default of the `--max-recursion` CLI flag
(app.py line 40). -/
def app_max_recursion_default : Int := 3

/-- The recursion limit that `Controller.perform_review` actually passes to
`review_pr` (controller.py lines 151, 161–162): `if not recursion_limit:
recursion_limit = 5` replaces a falsy value — for an int, exactly 0 — with
5. -/
def perform_review_recursion_limit (max_recursion : Int) : Int :=
  if max_recursion = 0 then 5 else max_recursion

/-- The data flow of `Controller.perform_review` (controller.py lines
142–169) into `review_pr`: `relevant_files` starts as `""`;
`project_description` (which PyGithub may return as `None`) is normalised to
`""` when falsy; the same normalisation on the `diff_text` and `context`
strings is the identity; the recursion limit is normalised by
`perform_review_recursion_limit`.  The prompt template is the LLM client's
`prompt_template` field (`PROMPT_TEMPLATE` unless a caller overrides it). -/
def perform_review (prompt_template : String)
    (repository_files : List (String × String)) (diff_text context : String)
    (project_description : Option String) (max_recursion : Int)
    (replies : List PyDict) : List GHCall × Except PyErr ReviewOutcome :=
  review_pr prompt_template repository_files diff_text context
    (project_description.getD "") "" (perform_review_recursion_limit max_recursion) replies

/-- A one-file repository listing, as in the second end-to-end scenario of the
specification: `a.py` containing `print(1)`. -/
def sampleRepo : List (String × String) := [("a.py", "print(1)")]

/-- A well-formed `additional_files` reply requesting `a.py`. -/
def addFilesReply : PyDict :=
  [("review_type", .str "additional_files"),
   ("message", .str "need more"),
   ("additional_files", .list [PyValue.str "a.py"])]

/-! ## Helper lemmas -/

/-- Unfolding one `additional_files` round of `review_pr`: when the prompt
renders, the reply discriminates as `additional_files` with a `message` and an
`additional_files` value that iterates to `paths`, and the repository lookup
loop returns `found`, the orchestrator recurses with the joined file text in
place of `relevant_files` and with `recursion_limit - 1`. -/
theorem review_pr_additional_round
    (tmpl : String) (repo : List (String × String)) (d c p rel : String)
    (rec : Int) (reply : PyDict) (rest : List PyDict) (prompt : String)
    (m afp : PyValue) (paths : List PyValue) (found : List (String × String))
    (hfmt : pyFormat tmpl (ctxKwargs d c p rel rec) = .ok prompt)
    (hrt : dictGet reply "review_type" = some (.str "additional_files"))
    (hmsg : dictGet reply "message" = some m)
    (hafp : dictGet reply "additional_files" = some afp)
    (hiter : pyIter afp = .ok paths)
    (hcollect : collectAdditionalFiles repo paths = .ok found) :
    review_pr tmpl repo d c p rel rec (reply :: rest) =
      review_pr tmpl repo d c p (files_to_string (dictOfPairs found))
        (rec - 1) rest := by
  simp only [review_pr, hfmt, hrt, hmsg, hafp, hiter, hcollect, pyEqStr]
  simp

/-- `collectAdditionalFiles` on a list of string paths keeps, in request
order, exactly the paths found in the repository listing, paired with their
content. -/
theorem collectAdditionalFiles_strings (repo : List (String × String))
    (ss : List String) :
    collectAdditionalFiles repo (ss.map PyValue.str) =
      .ok (ss.filterMap fun s =>
        (repo.find? (fun kv => kv.1 = s)).map fun kv => (s, kv.2)) := by
  induction ss with
  | nil => rfl
  | cons s ss ih =>
      cases h : repo.find? (fun kv => kv.1 = s) with
      | none => simp [collectAdditionalFiles, h, ih]
      | some kv =>
          simp only [List.map_cons, collectAdditionalFiles, h, ih, List.filterMap_cons]
          rfl

/-- Inserting a fresh key appends it. -/
theorem dictInsert_fresh (m : List (String × String)) (k v : String)
    (h : ∀ kv ∈ m, kv.1 ≠ k) : dictInsert m k v = m ++ [(k, v)] := by
  have : m.any (fun kv => kv.1 = k) = false := by
    simp only [List.any_eq_false, decide_eq_true_eq]
    exact h
  simp [dictInsert, this]

/-- Folding `dictInsert` over pairs whose keys are fresh for the accumulator
and mutually distinct appends them in order. -/
theorem dictOfPairs_go (ps : List (String × String)) :
    ∀ m : List (String × String),
      (∀ kv ∈ ps, ∀ kv' ∈ m, kv'.1 ≠ kv.1) → (ps.map Prod.fst).Nodup →
      ps.foldl (fun m kv => dictInsert m kv.1 kv.2) m = m ++ ps := by
  induction ps with
  | nil => intro m _ _; simp
  | cons kv ps ih =>
      intro m hdisj hnd
      have hfresh : ∀ kv' ∈ m, kv'.1 ≠ kv.1 :=
        fun kv' h' => hdisj kv (List.mem_cons_self kv ps) kv' h'
      have hstep : dictInsert m kv.1 kv.2 = m ++ [(kv.1, kv.2)] :=
        dictInsert_fresh m kv.1 kv.2 hfresh
      have hnd' : (ps.map Prod.fst).Nodup := (List.nodup_cons.mp hnd).2
      have hkv : kv.1 ∉ ps.map Prod.fst := (List.nodup_cons.mp hnd).1
      have hdisj' : ∀ q ∈ ps, ∀ kv' ∈ m ++ [(kv.1, kv.2)], kv'.1 ≠ q.1 := by
        intro q hq kv' hkv'
        rcases List.mem_append.mp hkv' with h' | h'
        · exact hdisj q (List.mem_cons_of_mem kv hq) kv' h'
        · have : kv' = (kv.1, kv.2) := List.mem_singleton.mp h'
          subst this
          intro hc
          exact hkv (hc ▸ List.mem_map_of_mem Prod.fst hq)
      calc (kv :: ps).foldl (fun m q => dictInsert m q.1 q.2) m
      _ = ps.foldl (fun m q => dictInsert m q.1 q.2) (m ++ [(kv.1, kv.2)]) := by
            simp [hstep]
      _ = (m ++ [(kv.1, kv.2)]) ++ ps := ih (m ++ [(kv.1, kv.2)]) hdisj' hnd'
      _ = m ++ kv :: ps := by simp

/-- The Python dict comprehension is the identity on pair lists with distinct
keys. -/
theorem dictOfPairs_nodup (ps : List (String × String))
    (hnd : (ps.map Prod.fst).Nodup) : dictOfPairs ps = ps := by
  have := dictOfPairs_go ps [] (by intro kv _ kv' h'; cases h') hnd
  simpa [dictOfPairs] using this

/-- The keys of the found-files list are the requested paths that are present
in the repository listing, in request order. -/
theorem foundFiles_keys (repo : List (String × String)) (ss : List String) :
    ((ss.filterMap fun s =>
        (repo.find? (fun kv => kv.1 = s)).map fun kv => (s, kv.2)).map
      Prod.fst)
      = ss.filter fun s => (repo.find? (fun kv => kv.1 = s)).isSome := by
  induction ss with
  | nil => rfl
  | cons s ss ih =>
      cases h : repo.find? (fun kv => kv.1 = s) <;>
        simp [List.filterMap_cons, List.filter_cons, h, ih]

/-- Rendering each found file as a `path`-newline-`content` block commutes
with the lookup. -/
theorem foundFiles_blocks (repo : List (String × String)) (ss : List String) :
    ((ss.filterMap fun s =>
        (repo.find? (fun kv => kv.1 = s)).map fun kv => (s, kv.2)).map
      (fun kv => kv.1 ++ "\n" ++ kv.2))
      = ss.filterMap fun s =>
          (repo.find? (fun kv => kv.1 = s)).map fun kv => s ++ "\n" ++ kv.2 := by
  induction ss with
  | nil => rfl
  | cons s ss ih =>
      cases h : repo.find? (fun kv => kv.1 = s) <;>
        simp [List.filterMap_cons, h, ih]

/-! ## Claim theorems -/

/-- C1: the claim says prompt rendering succeeds for every review context.
On the code it never does: the JSON examples inside `PROMPT_TEMPLATE` use
literal braces that are not escaped for `str.format`, so the scan of the first
example parses a replacement field whose name is the text between the example
braces — the newline-and-spaces-prefixed `"message"` — and the keyword lookup
raises `KeyError` on that name, for every combination of the five inputs. -/
theorem prompt_template_rendering_raises_key_error
    (diff_text context project_description relevant_files : String)
    (recursion_limit : Int) :
    pyFormat PROMPT_TEMPLATE
        (ctxKwargs diff_text context project_description relevant_files recursion_limit) =
      .error (.keyError "\n    \"message\"") := rfl

/-- C2: the claim says a valid `negative_review` reply leads to one comment
per line review followed by a summary review.  On the code the branch calls
`GitHubClient.create_negative_review` with two positional arguments while the
method accepts one, so Python raises `TypeError` at the call site: at the
specification's own end-to-end `negative_review` scenario the orchestrator
makes zero gateway calls and no `ChangesRequested` outcome is reached. -/
theorem negative_review_call_type_error :
    review_pr "" sampleRepo "" "" "" "" 5
      [[("review_type", .str "negative_review"), ("message", .str "fix it"),
        ("reviews", .list [PyValue.dict [("file", .str "a.py"),
          ("comments", .list [PyValue.dict
            [("line", .int 1), ("message", .str "use logging")]])]])]] =
      ([], .error (.typeError
        "GitHubClient.create_negative_review() takes 2 positional arguments but 3 were given")) :=
  rfl

/-- C3 counterexample: with recursion ceiling 0 and a reply sequence that
answers `additional_files` on every round, the loop is still running after
two rounds (more than R + 1 = 1): it is about to issue a third LLM call, and
the `recursionsRemaining` carried into that round is −2, after round two
started at −1 — the value does go negative. -/
theorem recursion_not_bounded_counterexample :
    review_pr "" sampleRepo "" "" "" "" 0 [addFilesReply, addFilesReply] =
      ([], .ok (.needsReply (-2) "a.py\nprint(1)")) ∧ (-2 : Int) < 0 :=
  ⟨rfl, by decide⟩

/-- C3 amended: each `additional_files` round decrements the recursion value
by exactly 1 and recurses, with no stop at 0: after `k` such rounds the
orchestrator awaits round `k + 1` with `recursionsRemaining = R − k`, for
every `k` — the ceiling is advisory to the model only, never enforced. -/
theorem additional_files_rounds_decrement_unboundedly (k : ℕ) :
    ∀ (R : Int) (rel : String),
      review_pr "" sampleRepo "" "" "" rel R (List.replicate k addFilesReply) =
        ([], .ok (.needsReply (R - k)
          (if k = 0 then rel else "a.py\nprint(1)"))) := by
  induction k with
  | zero => intro R rel; simp [review_pr, pyFormat, formatScan]
  | succ k ih =>
      intro R rel
      rw [List.replicate_succ]
      rw [review_pr_additional_round "" sampleRepo "" "" "" rel R addFilesReply
        (List.replicate k addFilesReply) "" (.str "need more")
        (.list [PyValue.str "a.py"]) [PyValue.str "a.py"] [("a.py", "print(1)")]
        rfl rfl rfl rfl rfl rfl]
      have hrw : files_to_string (dictOfPairs [("a.py", "print(1)")]) =
          "a.py\nprint(1)" := rfl
      rw [hrw, ih (R - 1) "a.py\nprint(1)"]
      have harith : R - 1 - (k : Int) = R - ((k + 1 : ℕ) : Int) := by
        push_cast
        ring
      simp [harith]

/-- C4: a valid `positive_review` reply terminates the loop at once with the
`POSITIVE_REVIEW` outcome, invoking `create_positive_review` exactly once
with exactly the reply's message (which issues one APPROVE review) and making
no negative-review call of any kind — the whole gateway trace is those two
events. -/
theorem positive_review_accepted
    (tmpl : String) (repo : List (String × String)) (d c p rel : String)
    (rec : Int) (reply : PyDict) (rest : List PyDict) (prompt : String)
    (msg : PyValue)
    (hfmt : pyFormat tmpl (ctxKwargs d c p rel rec) = .ok prompt)
    (hrt : dictGet reply "review_type" = some (.str "positive_review"))
    (hmsg : dictGet reply "message" = some msg) :
    review_pr tmpl repo d c p rel rec (reply :: rest) =
      ([.createPositiveReview msg,
        .createReview ("## Smart Review\n\n" ++ pyStr msg) "APPROVE"],
       .ok (.finished .POSITIVE_REVIEW)) := by
  simp only [review_pr, hfmt, hrt, hmsg, pyEqStr, create_positive_review]
  simp

/-- C4 witness: the specification's first end-to-end scenario, with an empty
template standing in for a renderable prompt template. -/
theorem positive_review_accepted_witness :
    review_pr "" [] "+1 line added" "" "demo repo" "" 5
      [[("review_type", .str "positive_review"), ("message", .str "LGTM")]] =
      ([.createPositiveReview (.str "LGTM"),
        .createReview "## Smart Review\n\nLGTM" "APPROVE"],
       .ok (.finished .POSITIVE_REVIEW)) :=
  positive_review_accepted "" [] "+1 line added" "" "demo repo" "" 5
    [("review_type", .str "positive_review"), ("message", .str "LGTM")] [] ""
    (.str "LGTM") rfl rfl rfl

/-- C5: an `additional_files` round looks up each requested path in the
repository listing, keeps — in request order — one `path`-newline-`content`
block per found path, drops missing paths without aborting, joins the blocks
with newlines into a `relevant_files` value that replaces the previous one
(the old value does not occur in the new state), and recurses with
`recursion_limit - 1`. -/
theorem additional_files_round_joins_found_files
    (tmpl : String) (repo : List (String × String)) (d c p rel : String)
    (rec : Int) (reply : PyDict) (rest : List PyDict) (prompt : String)
    (m : PyValue) (ss : List String)
    (hfmt : pyFormat tmpl (ctxKwargs d c p rel rec) = .ok prompt)
    (hrt : dictGet reply "review_type" = some (.str "additional_files"))
    (hmsg : dictGet reply "message" = some m)
    (hafp : dictGet reply "additional_files" = some (.list (ss.map PyValue.str)))
    (hnd : ss.Nodup) :
    review_pr tmpl repo d c p rel rec (reply :: rest) =
      review_pr tmpl repo d c p
        (String.intercalate "\n" (ss.filterMap fun s =>
          (repo.find? (fun kv => kv.1 = s)).map fun kv => s ++ "\n" ++ kv.2))
        (rec - 1) rest := by
  rw [review_pr_additional_round tmpl repo d c p rel rec reply rest prompt m
    (.list (ss.map PyValue.str)) (ss.map PyValue.str)
    (ss.filterMap fun s =>
      (repo.find? (fun kv => kv.1 = s)).map fun kv => (s, kv.2))
    hfmt hrt hmsg hafp rfl (collectAdditionalFiles_strings repo ss)]
  have hkeys : ((ss.filterMap fun s =>
      (repo.find? (fun kv => kv.1 = s)).map fun kv => (s, kv.2)).map
        Prod.fst).Nodup := by
    rw [foundFiles_keys]
    exact hnd.filter _
  rw [dictOfPairs_nodup _ hkeys]
  have hfts : files_to_string (ss.filterMap fun s =>
      (repo.find? (fun kv => kv.1 = s)).map fun kv => (s, kv.2)) =
      String.intercalate "\n" (ss.filterMap fun s =>
        (repo.find? (fun kv => kv.1 = s)).map fun kv => s ++ "\n" ++ kv.2) := by
    unfold files_to_string
    rw [foundFiles_blocks]
  rw [hfts]

/-- C5 witness: the specification's second end-to-end scenario — `a.py` is
found, joined as a single block, the previous `relevant_files` value is
replaced, and the recursion value drops from 5 to 4. -/
theorem additional_files_round_joins_found_files_witness :
    review_pr "" sampleRepo "" "" "" "previous round text" 5 [addFilesReply] =
      ([], .ok (.needsReply 4 "a.py\nprint(1)")) := by
  rw [additional_files_round_joins_found_files "" sampleRepo "" "" ""
    "previous round text" 5 addFilesReply [] "" (.str "need more") ["a.py"]
    rfl rfl rfl rfl (by simp)]
  rfl

/-- C6: a reply whose `review_type` is one of the three recognised values but
which is missing a required field for that type fails the corresponding
`assert` — the failure the specification names `MalformedReply` surfaces as
Python's `AssertionError` — and the gateway trace is empty: no review or
comment is created. -/
theorem malformed_reply_assertion_error
    (tmpl : String) (repo : List (String × String)) (d c p rel : String)
    (rec : Int) (reply : PyDict) (rest : List PyDict) (prompt : String)
    (hfmt : pyFormat tmpl (ctxKwargs d c p rel rec) = .ok prompt)
    (h :
      (dictGet reply "review_type" = some (.str "positive_review") ∧
        dictGet reply "message" = none) ∨
      (dictGet reply "review_type" = some (.str "negative_review") ∧
        (dictGet reply "message" = none ∨ dictGet reply "reviews" = none)) ∨
      (dictGet reply "review_type" = some (.str "additional_files") ∧
        (dictGet reply "message" = none ∨
          dictGet reply "additional_files" = none))) :
    review_pr tmpl repo d c p rel rec (reply :: rest) =
      ([], .error .assertionError) := by
  rcases h with ⟨hrt, hm⟩ | ⟨hrt, hm | hm⟩ | ⟨hrt, hm | hm⟩
  · simp only [review_pr, hfmt, hrt, hm, pyEqStr]
    simp
  · simp only [review_pr, hfmt, hrt, hm, pyEqStr]
    simp
  · cases hmsg : dictGet reply "message" with
    | none =>
        simp only [review_pr, hfmt, hrt, hmsg, pyEqStr]
        simp
    | some m =>
        simp only [review_pr, hfmt, hrt, hmsg, hm, pyEqStr]
        simp
  · simp only [review_pr, hfmt, hrt, hm, pyEqStr]
    simp
  · cases hmsg : dictGet reply "message" with
    | none =>
        simp only [review_pr, hfmt, hrt, hmsg, pyEqStr]
        simp
    | some m =>
        simp only [review_pr, hfmt, hrt, hmsg, hm, pyEqStr]
        simp

/-- C6 witness: a `negative_review` reply carrying neither `message` nor
`reviews`. -/
theorem malformed_reply_assertion_error_witness :
    review_pr "" [] "" "" "" "" 5 [[("review_type", .str "negative_review")]] =
      ([], .error .assertionError) :=
  malformed_reply_assertion_error "" [] "" "" "" "" 5
    [("review_type", .str "negative_review")] [] "" rfl
    (Or.inr (Or.inl ⟨rfl, Or.inl rfl⟩))

/-- C7: a reply whose `review_type` is absent, not a string, or a string
other than the three recognised values falls through the `elif` chain and
raises `SmartReviewGithubException` — the failure the specification names
`UnexpectedReplyShape` — with an empty gateway trace: no review or comment is
created. -/
theorem unexpected_review_type_error
    (tmpl : String) (repo : List (String × String)) (d c p rel : String)
    (rec : Int) (reply : PyDict) (rest : List PyDict) (prompt : String)
    (hfmt : pyFormat tmpl (ctxKwargs d c p rel rec) = .ok prompt)
    (h1 : pyEqStr (dictGet reply "review_type") "positive_review" = false)
    (h2 : pyEqStr (dictGet reply "review_type") "negative_review" = false)
    (h3 : pyEqStr (dictGet reply "review_type") "additional_files" = false) :
    review_pr tmpl repo d c p rel rec (reply :: rest) =
      ([], .error (.smartReviewGithubException "Unexpected review type from LLM.")) := by
  simp only [review_pr, hfmt, h1, h2, h3]
  simp

/-- C7 witness: a reply whose `review_type` is the integer 7 — present but
not one of the three recognised string values. -/
theorem unexpected_review_type_error_witness :
    review_pr "" [] "" "" "" "" 5 [[("review_type", .int 7)]] =
      ([], .error (.smartReviewGithubException "Unexpected review type from LLM.")) :=
  unexpected_review_type_error "" [] "" "" "" "" 5 [("review_type", .int 7)]
    [] "" rfl rfl rfl rfl

/-- C8 counterexample: the claim says the max-recursion setting defaults to 5
at every entry point and that a caller-supplied ceiling of 0 starts the loop
at 0.  On the code the CLI flag defaults to 3, and `perform_review` replaces
a ceiling of 0 (falsy in Python) with 5 before the first round. -/
theorem max_recursion_defaults_counterexample :
    app_max_recursion_default = 3 ∧ app_max_recursion_default ≠ 5 ∧
    perform_review_recursion_limit 0 = 5 ∧
    perform_review_recursion_limit 0 ≠ 0 := by
  refine ⟨rfl, ?_, rfl, ?_⟩ <;> decide

/-- C8 amended: `Options.max_recursion` defaults to 5 (validated to be ≥ 0),
but the CLI `--max-recursion` flag defaults to 3; `perform_review` starts the
first round with `recursionsRemaining` equal to the caller-supplied ceiling
for every nonzero ceiling, while a ceiling of exactly 0 is replaced by 5. -/
theorem max_recursion_normalisation :
    Options_max_recursion_default = 5 ∧
    Options_max_recursion_validator Options_max_recursion_default = true ∧
    app_max_recursion_default = 3 ∧
    (∀ (tmpl : String) (repo : List (String × String)) (d c : String)
      (desc : Option String) (replies : List PyDict),
        perform_review tmpl repo d c desc 0 replies =
          review_pr tmpl repo d c (desc.getD "") "" 5 replies) ∧
    (∀ (tmpl : String) (repo : List (String × String)) (d c : String)
      (desc : Option String) (r : Int) (replies : List PyDict), r ≠ 0 →
        perform_review tmpl repo d c desc r replies =
          review_pr tmpl repo d c (desc.getD "") "" r replies) := by
  refine ⟨rfl, rfl, rfl, fun tmpl repo d c desc replies => rfl, ?_⟩
  intro tmpl repo d c desc r replies hr
  simp [perform_review, perform_review_recursion_limit, hr]

/-- C8 amended witness: a nonzero ceiling of 7 is passed through unchanged. -/
theorem max_recursion_normalisation_witness :
    perform_review "" [] "" "" none 7 [] = review_pr "" [] "" "" "" "" 7 [] :=
  max_recursion_normalisation.2.2.2.2 "" [] "" "" none 7 [] (by decide)

/-- C9: constructing `AuthenticationInformation` fails — with the
`SmartReviewSystemException` the specification calls `ConfigurationError` —
exactly when zero or both of the OpenAI key and the Google credentials are
supplied; with exactly one credential it succeeds and selects the matching
LLM type. -/
theorem authentication_credential_selection :
    (∀ k : String, authentication_post_init (some k) none = .ok .OPENAI) ∧
    (∀ cr : Unit, authentication_post_init none (some cr) = .ok .GOOGLE) ∧
    (∀ (k : Option String) (cr : Option Unit),
      (∃ msg, authentication_post_init k cr =
          .error (.smartReviewSystemException msg)) ↔
        (k.isNone = true ∧ cr.isNone = true) ∨
          (k.isSome = true ∧ cr.isSome = true)) := by
  refine ⟨fun k => rfl, fun cr => rfl, fun k cr => ?_⟩
  cases k <;> cases cr <;> simp [authentication_post_init]

/-- C9 witness: an OpenAI key alone selects the OpenAI LLM type. -/
theorem authentication_credential_selection_witness :
    authentication_post_init (some "sk-test") none = .ok .OPENAI :=
  authentication_credential_selection.1 "sk-test"

/-- C10: when the chat completion succeeds but its message content is `None`
or the empty string, `_talk_to_llm` returns the empty dict without consulting
`json.loads` (so no invalid-JSON error is possible), and reviewing that empty
reply falls through the unrecognised-`review_type` branch with an empty
gateway trace. -/
theorem empty_llm_content_unrecognized_type
    (json_loads : String → Except PyErr PyValue)
    (tmpl : String) (repo : List (String × String)) (d c p rel : String)
    (rec : Int) (rest : List PyDict) (prompt : String)
    (hfmt : pyFormat tmpl (ctxKwargs d c p rel rec) = .ok prompt) :
    talk_to_llm_content json_loads none = .ok (.dict []) ∧
    talk_to_llm_content json_loads (some "") = .ok (.dict []) ∧
    review_pr tmpl repo d c p rel rec (([] : PyDict) :: rest) =
      ([], .error (.smartReviewGithubException "Unexpected review type from LLM.")) := by
  refine ⟨rfl, rfl, ?_⟩
  simp only [review_pr, hfmt]
  simp [dictGet, pyEqStr]

/-- C10 witness: a `json.loads` oracle that would reject everything is never
consulted for absent or empty content, and the empty reply aborts the review
with the unexpected-review-type failure. -/
theorem empty_llm_content_unrecognized_type_witness :
    talk_to_llm_content (fun s => .error (.valueError s)) none = .ok (.dict []) ∧
    talk_to_llm_content (fun s => .error (.valueError s)) (some "") = .ok (.dict []) ∧
    review_pr "" [] "" "" "" "" 5 [([] : PyDict)] =
      ([], .error (.smartReviewGithubException "Unexpected review type from LLM.")) :=
  empty_llm_content_unrecognized_type (fun s => .error (.valueError s))
    "" [] "" "" "" "" 5 [] "" rfl

end SmartReview

